import Mathlib

/-!
Verification of the extract → canonicalize → deduplicate → publish pipeline
of the cross_platform_freelancing_id repository (src/demo.js, src/ipfs.js).

The JavaScript source is shallowly embedded: JSON values become an inductive
type, `JSON.stringify` becomes a recursive serializer with JavaScript's
insertion-order and string-escaping semantics, the process-wide
`uploadedMetadata` Map becomes an association list threaded through the
operations, and the Pinata network call becomes a function parameter
`net : Json → String → Option String` (`some cid` for a successful pin,
`none` for a transport/service error that `axios` surfaces as a thrown
exception caught by the `try/catch`).
-/

/-- JavaScript JSON values as handled by `JSON.stringify` in this pipeline.
Object fields are an ordered list of key/value pairs: JavaScript objects
with string keys preserve insertion order, and `JSON.stringify` serializes
fields in that order. -/
inductive Json where
  | null : Json
  | bool (b : Bool) : Json
  | num (n : Int) : Json
  | str (s : String) : Json
  | arr (elems : List Json) : Json
  | obj (fields : List (String × Json)) : Json

/-- Lower-case hex digit, used for `\u00XX` escapes of control characters. -/
def hexDigit (n : Nat) : Char :=
  if n < 10 then Char.ofNat (48 + n) else Char.ofNat (87 + n)

/-- JavaScript string escaping as performed by `JSON.stringify` on one
character: `"` and `\` are backslash-escaped, the named control characters
become `\b`, `\t`, `\n`, `\f`, `\r`, remaining control characters become
`\u00XX`, and every other character is emitted verbatim. -/
def escapeJsonChar (c : Char) : String :=
  if c = '"' then "\\\""
  else if c = '\\' then "\\\\"
  else if c = '\x08' then "\\b"
  else if c = '\t' then "\\t"
  else if c = '\n' then "\\n"
  else if c = '\x0c' then "\\f"
  else if c = '\r' then "\\r"
  else if c.toNat < 32 then
    "\\u00" ++ String.mk [hexDigit (c.toNat / 16), hexDigit (c.toNat % 16)]
  else String.singleton c

/-- Escape a whole string for JSON serialization. -/
def escapeJsonString (s : String) : String :=
  String.join (s.toList.map escapeJsonChar)

/-- Comma-join a list of already-serialized fragments. -/
def commaSep (parts : List String) : String :=
  String.intercalate "," parts

mutual

/-- Embedding of `JSON.stringify(data)` as used by `generateHash` and by the
Pinata/IPFS payload construction. Object fields are serialized in insertion
order (JavaScript semantics): serialization is NOT insertion-order
insensitive. -/
def JSONStringify : Json → String
  | .null => "null"
  | .bool b => if b then "true" else "false"
  | .num n => toString n
  | .str s => "\"" ++ escapeJsonString s ++ "\""
  | .arr elems => "[" ++ commaSep (JSONStringifyList elems) ++ "]"
  | .obj fields => "\x7b" ++ commaSep (JSONStringifyFields fields) ++ "\x7d"

/-- Serialize each element of a JSON array. -/
def JSONStringifyList : List Json → List String
  | [] => []
  | x :: xs => JSONStringify x :: JSONStringifyList xs

/-- Serialize each `key:value` field of a JSON object, in insertion order. -/
def JSONStringifyFields : List (String × Json) → List String
  | [] => []
  | (k, v) :: fs =>
      ("\"" ++ escapeJsonString k ++ "\":" ++ JSONStringify v) :: JSONStringifyFields fs

end

/-- Model of `crypto.createHash("sha256").update(s).digest("hex")`.
The SHA-256 digest is an external library primitive, not code of this
repository; the spec's data model assumes collision resistance
(`fingerprint(A) == fingerprint(B) ⇔ CanonicalForm(A) == CanonicalForm(B)`),
so the digest is modelled as an injective encoding of its input bytes.
Every claim here depends only on equality or inequality of digests, which
this model decides exactly as that assumption prescribes. -/
def sha256hex (s : String) : String := s

/-- Embedding of `generateHash` (src/demo.js line 44): the SHA-256 hex digest
of `JSON.stringify(data)`. -/
def generateHash (data : Json) : String :=
  sha256hex (JSONStringify data)

/-- The in-memory `uploadedMetadata` Map (src/demo.js line 37), as an
association list from content hash to CID, in insertion order. -/
abbrev MetaStore := List (String × String)

/-- Model of `Map.prototype.get`, also the lookup underlying `Map.prototype.has`. -/
def mapGet (m : MetaStore) (k : String) : Option String :=
  match m with
  | [] => none
  | (k', v') :: rest => if k' = k then some v' else mapGet rest k

/-- Model of `Map.prototype.set`: replaces the value of an existing key, otherwise
appends the new entry. -/
def mapSet (m : MetaStore) (k v : String) : MetaStore :=
  match m with
  | [] => [(k, v)]
  | (k', v') :: rest => if k' = k then (k, v) :: rest else (k', v') :: mapSet rest k v

/-- Result of one `storeDataOnIPFS` call: the value the promise resolves to
(`some cid` or `none` for the `null` returned on upload error), the state of
`uploadedMetadata` afterwards, and whether a network submission
(`axios.post` to Pinata) was issued during the call. -/
structure StoreResult where
  cid : Option String
  store : MetaStore
  submitted : Bool
deriving DecidableEq, Repr

namespace Demo

/-- Embedding of `storeDataOnIPFS` (src/demo.js lines 49–82). `net` models
the Pinata pinning service: `net data name = some cid` when
`axios.post` resolves with `IpfsHash = cid`, `none` when it throws (the
`catch` branch logs and returns `null`). The dedup map is consulted before
any network call; `uploadedMetadata.set` runs only after a successful
upload. -/
def storeDataOnIPFS (net : Json → String → Option String)
    (uploadedMetadata : MetaStore) (data : Json) (metadataName : String) : StoreResult :=
  let dataHash := generateHash data
  match mapGet uploadedMetadata dataHash with
  | some cid => { cid := some cid, store := uploadedMetadata, submitted := false }
  | none =>
      match net data metadataName with
      | some cid =>
          { cid := some cid, store := mapSet uploadedMetadata dataHash cid, submitted := true }
      | none => { cid := none, store := uploadedMetadata, submitted := true }

end Demo

namespace Ipfs

/-- Embedding of `storeDataOnIPFS` (src/ipfs.js lines 20–29). `net` models
`ipfs.add` on the serialized JSON: `some cid` when the add resolves,
`none` when it throws (caught, logged, and `null` returned). This variant
keeps no dedup state. -/
def storeDataOnIPFS (net : String → Option String) (data : Json) : Option String :=
  net (JSONStringify data)

end Ipfs

/-!
Extractor: the `page.evaluate` callback of `scrapeFiverrProfile`
(src/demo.js lines 113–161). The rendered DOM snapshot is modelled by the
query results the callback observes: each `querySelector` becomes an
`Option` element, each `querySelectorAll` an ordered list.
-/

/-- A DOM element as observed by the extraction callback: only its
(untrimmed) `innerText` is read. -/
structure DomElement where
  innerText : String
deriving DecidableEq, Repr

/-- An anchor element: only `href` is read. -/
structure DomAnchor where
  href : String
deriving DecidableEq, Repr

/-- An image element: only `src` is read. -/
structure DomImage where
  src : String
deriving DecidableEq, Repr

/-- One `.gig-card-layout` element inside the gig container:
`el.querySelector("h4, h3, p")` and `el.querySelector("a")`. -/
structure GigCard where
  titleEl : Option DomElement
  linkEl : Option DomAnchor
deriving DecidableEq, Repr

/-- The `#Services` section: its `.gig_listings-package.listing-container.grid-view`
container, when present, with its ordered `.gig-card-layout` children. -/
structure ServicesSection where
  gigContainer : Option (List GigCard)
deriving DecidableEq, Repr

/-- One `.project-item` element: `.project-title` and `img` children. -/
structure ProjectItem where
  titleEl : Option DomElement
  imageEl : Option DomImage
deriving DecidableEq, Repr

/-- The rendered-page snapshot as queried by the extraction callback, one
field per selector it evaluates. -/
structure Snapshot where
  publicNameEl : Option DomElement
  usernameEl : Option DomElement
  gigTitleEl : Option DomElement
  reviewsEl : Option DomElement
  skillsList : List DomElement
  servicesSection : Option ServicesSection
  projectItems : List ProjectItem
deriving DecidableEq, Repr

/-- A gig record `{ title, link }` produced by extraction. -/
structure Gig where
  title : String
  link : String
deriving DecidableEq, Repr

/-- A project record `{ title, image }` produced by extraction. -/
structure Project where
  title : String
  image : String
deriving DecidableEq, Repr

/-- The object returned by the `page.evaluate` callback:
`{ publicName, username, gigTitle, reviewsCount, skills, gigs, projects }`. -/
structure ScrapedData where
  publicName : String
  username : String
  gigTitle : String
  reviewsCount : String
  skills : List String
  gigs : List Gig
  projects : List Project
deriving DecidableEq, Repr

/-- Embedding of `getText(selector)`: `el ? el.innerText.trim() : "N/A"`. -/
def getText (el : Option DomElement) : String :=
  match el with
  | some e => e.innerText.trim
  | none => "N/A"

/-- Embedding of the `page.evaluate` extraction callback
(src/demo.js lines 113–161). Every selector miss resolves to the sentinel
`"N/A"` (scalar fields) or to the empty list (list fields); the callback
performs no fallible operation, so extraction is a total function of the
snapshot. -/
def extractDomData (s : Snapshot) : ScrapedData :=
  let publicName := getText s.publicNameEl
  let username := getText s.usernameEl
  let gigTitle := getText s.gigTitleEl
  let reviewsCount :=
    match s.reviewsEl with
    | some e => ((e.innerText.splitOn "Reviews").headD e.innerText).trim
    | none => "N/A"
  let skills :=
    if s.skillsList.length > 0 then s.skillsList.map (fun a => a.innerText.trim) else []
  let gigs :=
    match s.servicesSection with
    | none => []
    | some sec =>
        match sec.gigContainer with
        | none => []
        | some cards =>
            cards.map (fun el =>
              { title := match el.titleEl with | some t => t.innerText.trim | none => "N/A"
                link := match el.linkEl with | some a => a.href | none => "N/A" })
  let projects :=
    s.projectItems.map (fun el =>
      { title := match el.titleEl with | some t => t.innerText.trim | none => "N/A"
        image := match el.imageEl with | some i => i.src | none => "N/A" })
  { publicName, username, gigTitle, reviewsCount, skills, gigs, projects }

/-!
Resource model of `scrapeFiverrProfile` (src/demo.js lines 85–174).
The external browser operations are modelled by which of them throws; the
JavaScript `try/catch/finally` semantics are encoded directly: the `catch`
turns any thrown error into the `null` return value, and the `finally`
clause runs on every exit path and closes the browser exactly when the
`browser` variable was assigned, i.e. exactly when `puppeteer.launch`
succeeded.
-/

/-- The external operations of `scrapeFiverrProfile` that can throw, in
program order. -/
inductive ScrapeStep where
  | launch
  | newPage
  | setUserAgent
  | goto
  | screenshot
  | evaluate
deriving DecidableEq, Repr

/-- Environment of one `scrapeFiverrProfile` call: which external operation
throws (all later ones are then unreachable), and the DOM snapshot the
`evaluate` callback observes when reached. -/
structure ScrapeEnv where
  fails : ScrapeStep → Bool
  snapshot : Snapshot

/-- Outcome of the `try` block: the thrown step or the extracted data,
paired with whether the `browser` variable was assigned (i.e. `launch`
succeeded before any throw). -/
def scrapeTryBody (env : ScrapeEnv) : Except ScrapeStep ScrapedData × Bool :=
  if env.fails .launch then (.error .launch, false)
  else if env.fails .newPage then (.error .newPage, true)
  else if env.fails .setUserAgent then (.error .setUserAgent, true)
  else if env.fails .goto then (.error .goto, true)
  else if env.fails .screenshot then (.error .screenshot, true)
  else if env.fails .evaluate then (.error .evaluate, true)
  else (.ok (extractDomData env.snapshot), true)

/-- Exit state of one `scrapeFiverrProfile` call: the resolved value
(`none` when the `catch` branch returned `null`), whether a browser was
launched, and whether `browser.close()` ran. -/
structure ScrapeExit where
  result : Option ScrapedData
  browserLaunched : Bool
  browserClosed : Bool
deriving DecidableEq, Repr

/-- Embedding of `scrapeFiverrProfile` (src/demo.js lines 85–174): run the
`try` body, convert any thrown error to the `null` result (`catch`), then
run the `finally` clause, which closes the browser iff the `browser`
variable holds a handle. -/
def scrapeFiverrProfile (env : ScrapeEnv) : ScrapeExit :=
  let (r, launched) := scrapeTryBody env
  let result := match r with | .ok d => some d | .error _ => none
  { result, browserLaunched := launched, browserClosed := launched }

/-!
Orchestrator: the `POST /scrape` handler. In src/demo.js the active handler
body (lines 389–391) is a stub comment ("The rest of the \"scrape\" endpoint
logic from your original code"); the orchestration it stands for is given by
the spec (§4.5, §6) and coincides with the commented-out original at the
bottom of src/demo.js (lines 568–611), which is followed here.
-/

/-- A `{ gigTitle, cid, ipfsUrl }` tuple appended to `gigCIDs` for each
successfully published gig. -/
structure GigRef where
  gigTitle : String
  cid : String
  ipfsUrl : String
deriving DecidableEq, Repr

/-- The JSON payload published for one gig: `{ title, link }`. -/
def gigJson (g : Gig) : Json :=
  .obj [("title", .str g.title), ("link", .str g.link)]

/-- The JSON payload for one project: `{ title, image }`. -/
def projectJson (p : Project) : Json :=
  .obj [("title", .str p.title), ("image", .str p.image)]

/-- The JSON form of one `{ gigTitle, cid, ipfsUrl }` tuple. -/
def gigRefJson (r : GigRef) : Json :=
  .obj [("gigTitle", .str r.gigTitle), ("cid", .str r.cid), ("ipfsUrl", .str r.ipfsUrl)]

/-- Pinata gateway URL for a CID. -/
def gatewayUrl (cid : String) : String :=
  "https://gateway.pinata.cloud/ipfs/" ++ cid

/-- Modelled from the spec: step 3 of the Orchestrator (§4.5) — the per-gig
publish loop of the `/scrape` handler, whose body is a stub comment in
src/demo.js (the commented-out original, lines 581–587, is followed). Each
gig is published through `Demo.storeDataOnIPFS` in extraction order,
threading the dedup store; on success a `{ gigTitle, cid, ipfsUrl }` tuple
is appended, on failure the gig is omitted. -/
def processGigs (net : Json → String → Option String) (st : MetaStore) :
    List Gig → List GigRef × MetaStore
  | [] => ([], st)
  | g :: gs =>
      let r := Demo.storeDataOnIPFS net st (gigJson g) ("Gig-" ++ g.title)
      let (rest, st') := processGigs net r.store gs
      match r.cid with
      | some cid =>
          (({ gigTitle := g.title, cid, ipfsUrl := gatewayUrl cid } : GigRef) :: rest, st')
      | none => (rest, st')

/-- Modelled from the spec: step 4 of the Orchestrator (§4.5) — the root
profile record, embedding the collected gig reference tuples in place of
the gig bodies (commented-out original, lines 590–598). -/
def profileDataJson (d : ScrapedData) (gigRefs : List GigRef) : Json :=
  .obj [("publicName", .str d.publicName),
        ("username", .str d.username),
        ("gigTitle", .str d.gigTitle),
        ("reviewsCount", .str d.reviewsCount),
        ("skills", .arr (d.skills.map .str)),
        ("projects", .arr (d.projects.map projectJson)),
        ("gigs", .arr (gigRefs.map gigRefJson))]

/-- Response envelope of `POST /scrape`: 400 for a missing URL, 500 for a
scrape or root-publish failure (no profileCID present), or the success JSON
`{ success, profileCID, profileIpfsUrl, gigs }`. -/
inductive ScrapeResponse where
  | badRequest (error : String)
  | serverError (error : String)
  | success (profileCID : String) (profileIpfsUrl : String) (gigs : List GigRef)
deriving DecidableEq, Repr

/-- Modelled from the spec: the `POST /scrape` handler (spec §4.5, §6; the
handler body in src/demo.js lines 389–391 is a stub comment, and the
commented-out original at lines 568–611 is followed). `scrape` models
`scrapeFiverrProfile` (`none` = scrape failure), `net` the Pinata service,
`st0` the `uploadedMetadata` state when the request arrives. Returns the
response and the dedup store afterwards. -/
def scrapeHandler (net : Json → String → Option String) (st0 : MetaStore)
    (profileUrl : Option String) (scrape : String → Option ScrapedData) :
    ScrapeResponse × MetaStore :=
  match profileUrl with
  | none => (.badRequest "❌ Profile URL is required", st0)
  | some url =>
      match scrape url with
      | none => (.serverError "❌ Failed to scrape Fiverr profile", st0)
      | some d =>
          let (gigRefs, st1) := processGigs net st0 d.gigs
          let r := Demo.storeDataOnIPFS net st1 (profileDataJson d gigRefs) "FiverrProfile"
          match r.cid with
          | none => (.serverError "❌ Failed to upload profile data to IPFS", r.store)
          | some pcid => (.success pcid (gatewayUrl pcid) gigRefs, r.store)

/-- The per-gig publish outcomes, in extraction order: the value
`Demo.storeDataOnIPFS` resolves to for each gig, with the dedup store
threaded exactly as in `processGigs`. -/
def gigOutcomes (net : Json → String → Option String) (st : MetaStore) :
    List Gig → List (Option String)
  | [] => []
  | g :: gs =>
      let r := Demo.storeDataOnIPFS net st (gigJson g) ("Gig-" ++ g.title)
      r.cid :: gigOutcomes net r.store gs

/-- Collect the reference tuples of the successfully published gigs, in
original order, from the per-gig outcome list. -/
def refsOf : List Gig → List (Option String) → List GigRef
  | g :: gs, o :: os =>
      (match o with
       | some cid => ({ gigTitle := g.title, cid, ipfsUrl := gatewayUrl cid } : GigRef) :: refsOf gs os
       | none => refsOf gs os)
  | _, _ => []

/-!
Concurrency model for `storeDataOnIPFS`. Node.js runs handlers on one
thread, but each `await` is a suspension point at which another request's
handler may run. One `storeDataOnIPFS` call therefore has two atomic
phases separated by the `await axios.post`: phase 0 (compute the hash,
check `uploadedMetadata`, and — on a miss — issue the POST), and phase 1
(receive the response and run `uploadedMetadata.set`). A schedule is the
order in which the pending calls run their phases.
-/

/-- One in-flight `storeDataOnIPFS` call: its argument, its program
counter (0 = before the dedup check, 1 = suspended at `await axios.post`,
2 = returned), and its resolved value once returned. -/
structure StoreTask where
  data : Json
  metadataName : String
  pc : Nat
  result : Option (Option String)

/-- Shared state of the interleaved execution: the process-wide
`uploadedMetadata`, the pending calls, and the hash of the payload of each
network submission issued so far, in order. -/
structure ConcState where
  store : MetaStore
  tasks : List StoreTask
  submissions : List String

/-- Replace a list element at an index (identity when out of range). -/
def listSet : List StoreTask → Nat → StoreTask → List StoreTask
  | [], _, _ => []
  | _ :: rest, 0, t => t :: rest
  | x :: rest, Nat.succ i, t => x :: listSet rest i t

/-- Run the next atomic phase of task `i`. Phase 0 is the code of
src/demo.js lines 50–56 plus issuing the POST of line 59 (on a dedup hit the
call returns at once with the cached CID and no submission); phase 1 is the
code of lines 74–80 (store the new hash→CID pair on success, resolve `null`
on error). A step on a finished or out-of-range task changes nothing. -/
def stepTask (net : Json → String → Option String) (st : ConcState) (i : Nat) : ConcState :=
  match st.tasks.get? i with
  | none => st
  | some t =>
      if t.pc = 0 then
        let dataHash := generateHash t.data
        match mapGet st.store dataHash with
        | some cid =>
            { st with tasks := listSet st.tasks i { t with pc := 2, result := some (some cid) } }
        | none =>
            { st with tasks := listSet st.tasks i { t with pc := 1 },
                      submissions := st.submissions ++ [dataHash] }
      else if t.pc = 1 then
        let dataHash := generateHash t.data
        match net t.data t.metadataName with
        | some cid =>
            { store := mapSet st.store dataHash cid,
              tasks := listSet st.tasks i { t with pc := 2, result := some (some cid) },
              submissions := st.submissions }
        | none =>
            { st with tasks := listSet st.tasks i { t with pc := 2, result := some none } }
      else st

/-- Run a schedule: a sequence of task indices, each executing its next
atomic phase. -/
def runSchedule (net : Json → String → Option String) (st : ConcState) :
    List Nat → ConcState
  | [] => st
  | i :: rest => runSchedule net (stepTask net st i) rest

/-- A fresh `storeDataOnIPFS` call on `data`, not yet started. -/
def freshTask (data : Json) (metadataName : String) : StoreTask :=
  { data, metadataName, pc := 0, result := none }

/-- Count, along a sequence of non-interleaved (each call completing before
the next begins) `storeDataOnIPFS` calls, how many of them issue a network
submission for hash `h` that succeeds, threading the dedup store. -/
def submitCount (net : Json → String → Option String) (st : MetaStore) (h : String) :
    List (Json × String) → Nat
  | [] => 0
  | (d, n) :: rest =>
      let r := Demo.storeDataOnIPFS net st d n
      (if generateHash d = h ∧ r.submitted = true ∧ r.cid.isSome then 1 else 0)
        + submitCount net r.store h rest

/-!
Ledger endpoints (src/demo.js lines 360–386). The `GET /api/profile/:wallet`
handler's first statement reads the identifier `awaitsbtContract`, which is
bound nowhere in the module (the module's top-level bindings are listed
below), so evaluating it throws a `ReferenceError` that the handler's
`catch` converts into a 500 response.
-/

/-- The top-level bindings of the src/demo.js module scope: its imports and
its `const`/`function` declarations. -/
def demoTopLevelNames : List String :=
  ["express", "cors", "bodyParser", "puppeteer", "StealthPlugin", "axios",
   "dotenv", "crypto", "ethers", "JsonRpcProvider", "app", "PORT",
   "uploadedMetadata", "generateHash", "storeDataOnIPFS",
   "scrapeFiverrProfile", "sbtABI", "sbtAddress", "provider", "signer",
   "sbtContract"]

/-- JavaScript identifier resolution against a scope: an unbound identifier
throws `ReferenceError: <name> is not defined`. -/
def resolveIdent (scope : List String) (x : String) : Except String Unit :=
  if scope.contains x then .ok () else .error (x ++ " is not defined")

/-- Response envelope of `GET /api/profile/:wallet`: 404, 500, or the
success JSON carrying the ledger record. -/
inductive ProfileResponse where
  | notFound (error : String)
  | serverError (error : String)
  | success (profile : List (String × String))
deriving DecidableEq, Repr

/-- Embedding of the `GET /api/profile/:wallet` handler (src/demo.js lines
373–386). Its first statement evaluates the identifier `awaitsbtContract`
(line 376); resolution against the module scope is modelled explicitly, and
a `ReferenceError` lands in the `catch` branch as a 500. The ledger
collaborators `userToDID` and `didRecords` model the contract views reached
only if resolution were to succeed. -/
def profileWalletHandler (userToDID : String → String)
    (didRecords : String → List (String × String)) (wallet : String) : ProfileResponse :=
  match resolveIdent demoTopLevelNames "awaitsbtContract" with
  | .error msg => .serverError msg
  | .ok _ =>
      let did := userToDID wallet
      if did = "" then .notFound "Profile not found"
      else .success (didRecords did)

/-!
Helper lemmas about the dedup map and `Demo.storeDataOnIPFS`, shared by the
claim theorems below.
-/

theorem mapGet_mapSet_self (m : MetaStore) (k v : String) :
    mapGet (mapSet m k v) k = some v := by
  induction m with
  | nil => simp [mapSet, mapGet]
  | cons p rest ih =>
      obtain ⟨k', v'⟩ := p
      by_cases h : k' = k
      · simp [mapSet, mapGet, h]
      · simp [mapSet, mapGet, h, ih]

theorem mapGet_mapSet_ne (m : MetaStore) (k k' v : String) (h : k' ≠ k) :
    mapGet (mapSet m k v) k' = mapGet m k' := by
  have hk : k ≠ k' := Ne.symm h
  induction m with
  | nil => simp [mapSet, mapGet, hk]
  | cons p rest ih =>
      obtain ⟨k₀, v₀⟩ := p
      by_cases h₀ : k₀ = k
      · subst h₀
        simp [mapSet, mapGet, hk]
      · simp [mapSet, mapGet, h₀, ih]

theorem storeDataOnIPFS_hit (net : Json → String → Option String) (st : MetaStore)
    (d : Json) (n : String) (c : String) (h : mapGet st (generateHash d) = some c) :
    Demo.storeDataOnIPFS net st d n = ⟨some c, st, false⟩ := by
  simp [Demo.storeDataOnIPFS, h]

theorem storeDataOnIPFS_preserves (net : Json → String → Option String) (st : MetaStore)
    (d : Json) (n : String) (k v : String) (h : mapGet st k = some v) :
    mapGet (Demo.storeDataOnIPFS net st d n).store k = some v := by
  unfold Demo.storeDataOnIPFS
  cases hg : mapGet st (generateHash d) with
  | some c => simpa [hg]
  | none =>
      cases hn : net d n with
      | some cid =>
          have hk : k ≠ generateHash d := by
            intro he
            rw [he, hg] at h
            cases h
          simpa [hg, hn] using (mapGet_mapSet_ne st (generateHash d) k cid hk).trans h
      | none => simpa [hg, hn]

theorem storeDataOnIPFS_success_mem (net : Json → String → Option String) (st : MetaStore)
    (d : Json) (n : String) (c : String)
    (hs : (Demo.storeDataOnIPFS net st d n).submitted = true)
    (hc : (Demo.storeDataOnIPFS net st d n).cid = some c) :
    mapGet (Demo.storeDataOnIPFS net st d n).store (generateHash d) = some c := by
  unfold Demo.storeDataOnIPFS at *
  cases hg : mapGet st (generateHash d) with
  | some c' => simp [hg] at hs
  | none =>
      cases hn : net d n with
      | some cid =>
          simp [hg, hn] at hc
          simpa [hg, hn, hc] using mapGet_mapSet_self st (generateHash d) cid
      | none => simp [hg, hn] at hc

/-- C1 counterexample: the two raw records with field/value set
`a ↦ "1", b ↦ "2"` built in the two insertion orders (a permutation of one
another) serialize to different byte forms under `JSON.stringify`, and
`generateHash` gives them different content fingerprints. -/
theorem generateHash_order_sensitive_cex :
    List.Perm [("a", Json.str "1"), ("b", Json.str "2")]
      [("b", Json.str "2"), ("a", Json.str "1")]
    ∧ JSONStringify (Json.obj [("a", Json.str "1"), ("b", Json.str "2")])
        ≠ JSONStringify (Json.obj [("b", Json.str "2"), ("a", Json.str "1")])
    ∧ generateHash (Json.obj [("a", Json.str "1"), ("b", Json.str "2")])
        ≠ generateHash (Json.obj [("b", Json.str "2"), ("a", Json.str "1")]) :=
  ⟨List.Perm.swap _ _ _, by decide, by decide⟩

/-- C1 (amended): `generateHash` is deterministic in the serialized byte
form — two records receive the identical content fingerprint exactly when
`JSON.stringify` yields the identical byte form. Because serialization
follows field insertion order, field-set-equal records built in different
insertion orders may serialize differently and then fingerprint
differently. -/
theorem generateHash_eq_iff_stringify_eq (a b : Json) :
    generateHash a = generateHash b ↔ JSONStringify a = JSONStringify b :=
  Iff.rfl

/-- C2: after a first call on `data` that issued a network submission and
resolved to a CID, a second call on fingerprint-equal content issues no
network submission and resolves to the CID cached by the first call,
leaving the dedup store unchanged. -/
theorem dedup_idempotent_second_call
    (net : Json → String → Option String) (st : MetaStore) (data data' : Json)
    (name name' : String) (c : String)
    (h1 : (Demo.storeDataOnIPFS net st data name).submitted = true)
    (h2 : (Demo.storeDataOnIPFS net st data name).cid = some c)
    (heq : generateHash data' = generateHash data) :
    Demo.storeDataOnIPFS net (Demo.storeDataOnIPFS net st data name).store data' name'
      = ⟨some c, (Demo.storeDataOnIPFS net st data name).store, false⟩ := by
  have hmem := storeDataOnIPFS_success_mem net st data name c h1 h2
  have hmem' : mapGet (Demo.storeDataOnIPFS net st data name).store (generateHash data')
      = some c := by rw [heq]; exact hmem
  exact storeDataOnIPFS_hit net _ data' name' c hmem'

/-- Witness for C2 at a concrete input: first publish of `"x"` through an
always-succeeding network, then a second call on the same content. -/
theorem dedup_idempotent_second_call_witness :
    Demo.storeDataOnIPFS (fun _ _ => some "QmA")
        (Demo.storeDataOnIPFS (fun _ _ => some "QmA") [] (Json.str "x") "M").store
        (Json.str "x") "M2"
      = ⟨some "QmA",
         (Demo.storeDataOnIPFS (fun _ _ => some "QmA") [] (Json.str "x") "M").store,
         false⟩ :=
  dedup_idempotent_second_call (fun _ _ => some "QmA") [] (Json.str "x") (Json.str "x")
    "M" "M2" "QmA" (by decide) (by decide) rfl

/-- C3: `storeDataOnIPFS` always resolves to a result value — a CID on
success, the `null` marker on upload error — and the dedup map is written
only on a first successful publish: on an error result the map is exactly
the pre-call map, and a `some`-CID result comes either from a cache hit
(map unchanged) or from a successful submission of a previously absent
fingerprint (map extended by exactly that entry). The src/ipfs.js variant
likewise resolves to the network's answer and keeps no dedup state. -/
theorem storeDataOnIPFS_resolves_and_protects_store
    (net : Json → String → Option String) (st : MetaStore) (data : Json) (name : String) :
    ((Demo.storeDataOnIPFS net st data name).cid = none →
        (Demo.storeDataOnIPFS net st data name).store = st)
    ∧ (∀ c, (Demo.storeDataOnIPFS net st data name).cid = some c →
        (mapGet st (generateHash data) = some c
            ∧ (Demo.storeDataOnIPFS net st data name).store = st)
        ∨ (mapGet st (generateHash data) = none ∧ net data name = some c
            ∧ (Demo.storeDataOnIPFS net st data name).store
                = mapSet st (generateHash data) c))
    ∧ (∀ inet d, Ipfs.storeDataOnIPFS inet d = inet (JSONStringify d)) := by
  refine ⟨?_, ?_, fun _ _ => rfl⟩ <;>
    · unfold Demo.storeDataOnIPFS
      cases hg : mapGet st (generateHash data) with
      | some c' => simp [hg]
      | none =>
          cases hn : net data name with
          | some cid => simp [hg, hn]
          | none => simp [hg, hn]

/-- Witness for C3 at a concrete input: an always-failing network leaves the
empty dedup map unchanged. -/
theorem storeDataOnIPFS_resolves_and_protects_store_witness :
    (Demo.storeDataOnIPFS (fun _ _ => none) [] (Json.str "x") "M").cid = none
    ∧ (Demo.storeDataOnIPFS (fun _ _ => none) [] (Json.str "x") "M").store = [] :=
  ⟨by decide,
   (storeDataOnIPFS_resolves_and_protects_store (fun _ _ => none) [] (Json.str "x") "M").1
     (by decide)⟩

/-- C9: the dedup map is write-once and monotone — any entry present before
a `storeDataOnIPFS` call is still present, unchanged, afterwards, and a call
on content whose fingerprint is already mapped returns exactly the first
stored CID. -/
theorem uploadedMetadata_write_once_monotone
    (net : Json → String → Option String) (st : MetaStore) (data : Json)
    (name k v : String) (h : mapGet st k = some v) :
    mapGet (Demo.storeDataOnIPFS net st data name).store k = some v
    ∧ (k = generateHash data →
        (Demo.storeDataOnIPFS net st data name).cid = some v) := by
  refine ⟨storeDataOnIPFS_preserves net st data name k v h, fun hk => ?_⟩
  subst hk
  rw [storeDataOnIPFS_hit net st data name v h]

/-- Witness for C9 at a concrete input: a map already holding the
fingerprint of `"x"` keeps its entry, and the call returns the stored CID. -/
theorem uploadedMetadata_write_once_monotone_witness :
    mapGet (Demo.storeDataOnIPFS (fun _ _ => some "QmB") [("\"x\"", "QmZ")]
        (Json.str "x") "M").store "\"x\"" = some "QmZ"
    ∧ (Demo.storeDataOnIPFS (fun _ _ => some "QmB") [("\"x\"", "QmZ")]
        (Json.str "x") "M").cid = some "QmZ" := by
  have h := uploadedMetadata_write_once_monotone (fun _ _ => some "QmB")
    [("\"x\"", "QmZ")] (Json.str "x") "M" "\"x\"" "QmZ" (by decide)
  exact ⟨h.1, h.2 (by decide)⟩

/-- C6: extraction is a total function of the snapshot (the embedded
callback performs no fallible operation), and every selector miss resolves
to the sentinel default — `"N/A"` for the scalar fields, the empty list for
the list fields (skills, gigs, projects). -/
theorem extraction_sentinel_defaults (s : Snapshot) :
    (s.publicNameEl = none → (extractDomData s).publicName = "N/A")
    ∧ (s.usernameEl = none → (extractDomData s).username = "N/A")
    ∧ (s.gigTitleEl = none → (extractDomData s).gigTitle = "N/A")
    ∧ (s.reviewsEl = none → (extractDomData s).reviewsCount = "N/A")
    ∧ (s.skillsList = [] → (extractDomData s).skills = [])
    ∧ (s.servicesSection = none → (extractDomData s).gigs = [])
    ∧ (∀ sec, s.servicesSection = some sec → sec.gigContainer = none →
        (extractDomData s).gigs = [])
    ∧ (s.projectItems = [] → (extractDomData s).projects = []) := by
  refine ⟨fun h => ?_, fun h => ?_, fun h => ?_, fun h => ?_, fun h => ?_,
    fun h => ?_, fun sec h hc => ?_, fun h => ?_⟩ <;>
    simp_all [extractDomData, getText]

/-- Witness for C6 at a concrete input: a snapshot in which every queried
element is absent yields exactly the sentinel record. -/
theorem extraction_sentinel_defaults_witness :
    (extractDomData ⟨none, none, none, none, [], none, []⟩).publicName = "N/A"
    ∧ (extractDomData ⟨none, none, none, none, [], none, []⟩).username = "N/A"
    ∧ (extractDomData ⟨none, none, none, none, [], none, []⟩).gigTitle = "N/A"
    ∧ (extractDomData ⟨none, none, none, none, [], none, []⟩).reviewsCount = "N/A"
    ∧ (extractDomData ⟨none, none, none, none, [], none, []⟩).skills = []
    ∧ (extractDomData ⟨none, none, none, none, [], none, []⟩).gigs = []
    ∧ (extractDomData ⟨none, none, none, none, [], none, []⟩).projects = [] := by
  have h := extraction_sentinel_defaults ⟨none, none, none, none, [], none, []⟩
  exact ⟨h.1 rfl, h.2.1 rfl, h.2.2.1 rfl, h.2.2.2.1 rfl, h.2.2.2.2.1 rfl,
    h.2.2.2.2.2.1 rfl, h.2.2.2.2.2.2.2 rfl⟩

/-- C7: on every exit path of `scrapeFiverrProfile` on which the browser was
launched — successful extraction and every error thrown by a later external
operation — the `finally` clause closes the browser before the function
returns; in particular every successful return closes it. -/
theorem scrapeFiverrProfile_releases_browser (env : ScrapeEnv)
    (h : (scrapeFiverrProfile env).browserLaunched = true) :
    (scrapeFiverrProfile env).browserClosed = true
    ∧ ((scrapeFiverrProfile env).result.isSome →
        (scrapeFiverrProfile env).browserClosed = true) := by
  constructor
  · calc (scrapeFiverrProfile env).browserClosed
        = (scrapeFiverrProfile env).browserLaunched := rfl
      _ = true := h
  · intro _
    calc (scrapeFiverrProfile env).browserClosed
        = (scrapeFiverrProfile env).browserLaunched := rfl
      _ = true := h

/-- Witness for C7 at concrete inputs: a run in which every external
operation succeeds, and a run in which navigation throws after launch; in
both the browser is closed. -/
theorem scrapeFiverrProfile_releases_browser_witness :
    (scrapeFiverrProfile
        { fails := fun _ => false,
          snapshot := ⟨none, none, none, none, [], none, []⟩ }).browserClosed = true
    ∧ (scrapeFiverrProfile
        { fails := fun st => match st with | .goto => true | _ => false,
          snapshot := ⟨none, none, none, none, [], none, []⟩ }).browserClosed = true :=
  ⟨(scrapeFiverrProfile_releases_browser
      { fails := fun _ => false,
        snapshot := ⟨none, none, none, none, [], none, []⟩ } rfl).1,
   (scrapeFiverrProfile_releases_browser
      { fails := fun st => match st with | .goto => true | _ => false,
        snapshot := ⟨none, none, none, none, [], none, []⟩ } rfl).1⟩

/-!
Lemmas relating the per-gig publish loop to its outcome list.
-/

theorem processGigs_fst (net : Json → String → Option String) (gs : List Gig) :
    ∀ st : MetaStore, (processGigs net st gs).1 = refsOf gs (gigOutcomes net st gs) := by
  induction gs with
  | nil => intro st; rfl
  | cons g gs ih =>
      intro st
      simp only [processGigs, gigOutcomes, refsOf]
      rcases hp : processGigs net
          (Demo.storeDataOnIPFS net st (gigJson g) ("Gig-" ++ g.title)).store gs
        with ⟨rest, st'⟩
      have hrest : rest
          = refsOf gs (gigOutcomes net
              (Demo.storeDataOnIPFS net st (gigJson g) ("Gig-" ++ g.title)).store gs) := by
        have := ih (Demo.storeDataOnIPFS net st (gigJson g) ("Gig-" ++ g.title)).store
        rw [hp] at this
        exact this
      cases hc : (Demo.storeDataOnIPFS net st (gigJson g) ("Gig-" ++ g.title)).cid with
      | some cid => simp [hp, hc, hrest]
      | none => simp [hp, hc, hrest]

theorem gigOutcomes_length (net : Json → String → Option String) (gs : List Gig) :
    ∀ st : MetaStore, (gigOutcomes net st gs).length = gs.length := by
  induction gs with
  | nil => intro st; rfl
  | cons g gs ih => intro st; simp [gigOutcomes, ih]

theorem refsOf_length_countP (gs : List Gig) :
    ∀ os : List (Option String), os.length = gs.length →
      (refsOf gs os).length = os.countP (fun o => o.isSome) := by
  induction gs with
  | nil =>
      intro os h
      cases os with
      | nil => rfl
      | cons o os' => simp at h
  | cons g gs ih =>
      intro os h
      cases os with
      | nil => simp at h
      | cons o os' =>
          cases o with
          | some c => simp [refsOf, List.countP_cons, ih os' (by simpa using h)]
          | none => simp [refsOf, List.countP_cons, ih os' (by simpa using h)]

theorem countP_isSome_add_isNone (os : List (Option String)) :
    os.countP (fun o => o.isSome) + os.countP (fun o => o.isNone) = os.length := by
  induction os with
  | nil => rfl
  | cons o os ih => cases o <;> simp [List.countP_cons, ih] <;> omega

/-- C4 (spec-modelled orchestration): when the scrape succeeds, exactly one
of the extracted gigs fails to publish, and the root profile publish
succeeds, the response is a success whose listing collection is exactly the
successfully published gigs in original extraction order — one fewer than
extracted — with the root profile CID. -/
theorem scrape_omits_failed_listing
    (net : Json → String → Option String) (st0 : MetaStore) (url : String)
    (scrape : String → Option ScrapedData) (d : ScrapedData) (pcid : String)
    (hscrape : scrape url = some d)
    (hone : (gigOutcomes net st0 d.gigs).countP (fun o => o.isNone) = 1)
    (hroot : (Demo.storeDataOnIPFS net (processGigs net st0 d.gigs).2
        (profileDataJson d (processGigs net st0 d.gigs).1) "FiverrProfile").cid
          = some pcid) :
    (scrapeHandler net st0 (some url) scrape).1
      = ScrapeResponse.success pcid (gatewayUrl pcid)
          (refsOf d.gigs (gigOutcomes net st0 d.gigs))
    ∧ (refsOf d.gigs (gigOutcomes net st0 d.gigs)).length = d.gigs.length - 1 := by
  constructor
  · rcases hp : processGigs net st0 d.gigs with ⟨refs, st1⟩
    have hrefs : refs = refsOf d.gigs (gigOutcomes net st0 d.gigs) := by
      have := processGigs_fst net d.gigs st0
      rw [hp] at this
      exact this
    subst hrefs
    rw [hp] at hroot
    simp only [Prod.fst, Prod.snd] at hroot
    simp only [scrapeHandler, hscrape, hp]
    simp [hroot]
  · have hlen := refsOf_length_countP d.gigs (gigOutcomes net st0 d.gigs)
      (gigOutcomes_length net d.gigs st0)
    have hsum := countP_isSome_add_isNone (gigOutcomes net st0 d.gigs)
    have hl := gigOutcomes_length net d.gigs st0
    omega

/-- Witness for C4 at a concrete input: a profile with three gigs of which
exactly the second fails to upload; the response succeeds and lists the two
surviving gigs in order. -/
theorem scrape_omits_failed_listing_witness :
    (scrapeHandler (fun _ name => if name = "Gig-B" then none else some "QmW") []
        (some "u")
        (fun _ => some ⟨"Alice", "alice", "T", "5", [],
            [⟨"A", "la"⟩, ⟨"B", "lb"⟩, ⟨"C", "lc"⟩], []⟩)).1
      = ScrapeResponse.success "QmW" (gatewayUrl "QmW")
          (refsOf [⟨"A", "la"⟩, ⟨"B", "lb"⟩, ⟨"C", "lc"⟩]
            (gigOutcomes (fun _ name => if name = "Gig-B" then none else some "QmW")
              [] [⟨"A", "la"⟩, ⟨"B", "lb"⟩, ⟨"C", "lc"⟩]))
    ∧ (refsOf [⟨"A", "la"⟩, ⟨"B", "lb"⟩, ⟨"C", "lc"⟩]
        (gigOutcomes (fun _ name => if name = "Gig-B" then none else some "QmW")
          [] [⟨"A", "la"⟩, ⟨"B", "lb"⟩, ⟨"C", "lc"⟩])).length = 3 - 1 :=
  scrape_omits_failed_listing
    (fun _ name => if name = "Gig-B" then none else some "QmW") [] "u"
    (fun _ => some ⟨"Alice", "alice", "T", "5", [],
        [⟨"A", "la"⟩, ⟨"B", "lb"⟩, ⟨"C", "lc"⟩], []⟩)
    ⟨"Alice", "alice", "T", "5", [], [⟨"A", "la"⟩, ⟨"B", "lb"⟩, ⟨"C", "lc"⟩], []⟩
    "QmW" rfl (by decide) (by decide)

/-- C5 (spec-modelled orchestration): when the scrape succeeds but the root
profile publish fails, the handler returns the 500 server-error response,
which carries no profileCID — in particular it is not a success response
for any CID. -/
theorem scrape_root_failure_propagation
    (net : Json → String → Option String) (st0 : MetaStore) (url : String)
    (scrape : String → Option ScrapedData) (d : ScrapedData)
    (hscrape : scrape url = some d)
    (hroot : (Demo.storeDataOnIPFS net (processGigs net st0 d.gigs).2
        (profileDataJson d (processGigs net st0 d.gigs).1) "FiverrProfile").cid
          = none) :
    (scrapeHandler net st0 (some url) scrape).1
      = ScrapeResponse.serverError "❌ Failed to upload profile data to IPFS"
    ∧ ∀ pcid purl gigs, (scrapeHandler net st0 (some url) scrape).1
        ≠ ScrapeResponse.success pcid purl gigs := by
  rcases hp : processGigs net st0 d.gigs with ⟨refs, st1⟩
  rw [hp] at hroot
  simp only [Prod.fst, Prod.snd] at hroot
  have hmain : (scrapeHandler net st0 (some url) scrape).1
      = ScrapeResponse.serverError "❌ Failed to upload profile data to IPFS" := by
    simp only [scrapeHandler, hscrape, hp]
    simp [hroot]
  refine ⟨hmain, fun pcid purl gigs h => ?_⟩
  rw [hmain] at h
  exact ScrapeResponse.noConfusion h

/-- Witness for C5 at a concrete input: an always-failing network makes the
gig loop publish nothing and the root publish fail; the handler answers with
the 500 error. -/
theorem scrape_root_failure_propagation_witness :
    (scrapeHandler (fun _ _ => none) [] (some "u")
        (fun _ => some ⟨"Alice", "alice", "T", "5", [], [], []⟩)).1
      = ScrapeResponse.serverError "❌ Failed to upload profile data to IPFS" :=
  (scrape_root_failure_propagation (fun _ _ => none) [] "u"
    (fun _ => some ⟨"Alice", "alice", "T", "5", [], [], []⟩)
    ⟨"Alice", "alice", "T", "5", [], [], []⟩ rfl (by decide)).1

/-!
Lemmas for the at-most-one-successful-submission invariant over sequential
calls.
-/

theorem submitCount_eq_zero_of_present (net : Json → String → Option String)
    (h c : String) (calls : List (Json × String)) :
    ∀ st : MetaStore, mapGet st h = some c → submitCount net st h calls = 0 := by
  induction calls with
  | nil => intro st _; rfl
  | cons p rest ih =>
      obtain ⟨d, n⟩ := p
      intro st hst
      simp only [submitCount]
      have hpres := storeDataOnIPFS_preserves net st d n h c hst
      rw [ih _ hpres]
      by_cases hd : generateHash d = h
      · have hhit : Demo.storeDataOnIPFS net st d n = ⟨some c, st, false⟩ :=
          storeDataOnIPFS_hit net st d n c (by rw [hd]; exact hst)
        simp [hhit]
      · simp [hd]

/-- C8 (amended): across any sequence of non-interleaved `storeDataOnIPFS`
calls — each call completing before the next begins — at most one successful
network submission occurs per distinct fingerprint, from any starting dedup
store. -/
theorem sequential_submitCount_le_one (net : Json → String → Option String)
    (h : String) (calls : List (Json × String)) :
    ∀ st : MetaStore, submitCount net st h calls ≤ 1 := by
  induction calls with
  | nil => intro st; simp [submitCount]
  | cons p rest ih =>
      obtain ⟨d, n⟩ := p
      intro st
      simp only [submitCount]
      by_cases hcond : generateHash d = h
          ∧ (Demo.storeDataOnIPFS net st d n).submitted = true
          ∧ ((Demo.storeDataOnIPFS net st d n).cid.isSome : Prop)
      · obtain ⟨hd, hs, hsome⟩ := hcond
        obtain ⟨c, hcid⟩ := Option.isSome_iff_exists.mp hsome
        have hmem := storeDataOnIPFS_success_mem net st d n c hs hcid
        have hzero := submitCount_eq_zero_of_present net h c rest
          (Demo.storeDataOnIPFS net st d n).store (by rw [← hd]; exact hmem)
        rw [if_pos ⟨hd, hs, hsome⟩, hzero]
      · rw [if_neg hcond]
        simpa using ih (Demo.storeDataOnIPFS net st d n).store

/-- C8 counterexample: two concurrent `storeDataOnIPFS` calls on the same
content `"x"`, against the unguarded shared dedup map, interleaved at the
`await axios.post` suspension point (schedule: both run their dedup-check
phase before either completes) — both miss the map and both issue a network
submission: two submissions for one distinct fingerprint. -/
theorem concurrent_dedup_double_submission_cex :
    (runSchedule (fun _ _ => some "Qm1")
        { store := [],
          tasks := [freshTask (Json.str "x") "A", freshTask (Json.str "x") "B"],
          submissions := [] } [0, 1, 0, 1]).submissions
      = [generateHash (Json.str "x"), generateHash (Json.str "x")]
    ∧ List.count (generateHash (Json.str "x"))
        ((runSchedule (fun _ _ => some "Qm1")
          { store := [],
            tasks := [freshTask (Json.str "x") "A", freshTask (Json.str "x") "B"],
            submissions := [] } [0, 1, 0, 1]).submissions) = 2 :=
  ⟨by decide, by decide⟩

/-- C10: the `GET /api/profile/:wallet` handler always answers with the 500
response produced by the `ReferenceError` on the unbound identifier
`awaitsbtContract`, and never returns a profile record, whatever the ledger
holds. -/
theorem profileWalletHandler_always_500 (userToDID : String → String)
    (didRecords : String → List (String × String)) (wallet : String) :
    profileWalletHandler userToDID didRecords wallet
      = ProfileResponse.serverError "awaitsbtContract is not defined"
    ∧ ∀ rec, profileWalletHandler userToDID didRecords wallet
        ≠ ProfileResponse.success rec := by
  have hfirst : profileWalletHandler userToDID didRecords wallet
      = ProfileResponse.serverError "awaitsbtContract is not defined" := by
    have hc : "awaitsbtContract" ∉ demoTopLevelNames := by decide
    have hres : resolveIdent demoTopLevelNames "awaitsbtContract"
        = Except.error "awaitsbtContract is not defined" := by
      simp [resolveIdent, hc]
    simp [profileWalletHandler, hres]
  refine ⟨hfirst, fun rec h => ?_⟩
  rw [hfirst] at h
  exact ProfileResponse.noConfusion h
